import Mathlib

/-!
Verification of the Text Cryptographic Operations Engine of the rcli
repository (src/process/text.rs, src/cli/text.rs, src/process/gen_pass.rs).

Bytes are modelled as `Nat` (values < 256 where it matters), byte buffers as
`List Nat`.  Rust `Result` values are modelled by `Outcome`, which also has a
`panic` constructor: several places in the source index a slice
(`key[..32]`, `sig[..64]`) or call `clone_from_slice`, which abort the
process with a panic instead of returning an `Err`, and the distinction
matters for the error-handling claims.

The external crates (blake3, ed25519-dalek, chacha20poly1305, rand) are not
part of the repository; their entry points are modelled from the spec, each
with a doc comment saying so.
-/

/-- Outcome of a Rust computation: `ok` and `err` are the two sides of
`anyhow::Result`; `panic` models a Rust panic (slice index out of range,
`clone_from_slice` length mismatch), which never reaches the caller as an
error value. -/
inductive Outcome (α : Type) where
  | ok : α → Outcome α
  | err : String → Outcome α
  | panic : Outcome α
deriving Repr, DecidableEq

/-- Monadic sequencing on `Outcome`: models Rust `?` / method chaining. -/
def Outcome.bind {α β : Type} : Outcome α → (α → Outcome β) → Outcome β
  | .ok a, f => f a
  | .err e, _ => .err e
  | .panic, _ => .panic

/-- The `TextSignFormat` enum of src/cli/text.rs (the spec's
`AlgorithmFormat`): Blake3 = KeyedHash, Ed25519 = Signature,
Chacha20Poly1305 = AuthenticatedCipher. -/
inductive TextSignFormat where
  | Blake3
  | Ed25519
  | Chacha20Poly1305
deriving Repr, DecidableEq

/-- The `FromStr` impl for `TextSignFormat` (src/cli/text.rs):
a match on the exact string, any other token is `anyhow!("invalid format")`. -/
def TextSignFormat.fromStr (s : String) : Outcome TextSignFormat :=
  if s = "blake3" then .ok .Blake3
  else if s = "ed25519" then .ok .Ed25519
  else if s = "chacha20poly1305" then .ok .Chacha20Poly1305
  else .err "invalid format"

/-- C7: `TextSignFormat::from_str` accepts exactly the three case-sensitive
tokens "blake3", "ed25519", "chacha20poly1305", mapping each to its variant,
and returns the invalid-format error on every other string. -/
theorem fromStr_exact (s : String) :
    (TextSignFormat.fromStr s = .ok .Blake3 ↔ s = "blake3") ∧
    (TextSignFormat.fromStr s = .ok .Ed25519 ↔ s = "ed25519") ∧
    (TextSignFormat.fromStr s = .ok .Chacha20Poly1305 ↔ s = "chacha20poly1305") ∧
    (s ≠ "blake3" → s ≠ "ed25519" → s ≠ "chacha20poly1305" →
      TextSignFormat.fromStr s = .err "invalid format") := by
  unfold TextSignFormat.fromStr
  by_cases h1 : s = "blake3" <;> by_cases h2 : s = "ed25519" <;>
    by_cases h3 : s = "chacha20poly1305" <;> simp_all

/-- Witness for `fromStr_exact`: evaluated at the concrete string "ed25519"
and, for the rejection clause, at "foo". -/
theorem fromStr_exact_witness :
    TextSignFormat.fromStr "ed25519" = .ok .Ed25519 ∧
    TextSignFormat.fromStr "foo" = .err "invalid format" :=
  ⟨(fromStr_exact "ed25519").2.1.mpr rfl,
   (fromStr_exact "foo").2.2.2 (by decide) (by decide) (by decide)⟩

/-- Modelled from the spec: `blake3::keyed_hash` of the external blake3 crate
(the crate is not part of this repository). The spec requires a deterministic
keyed digest of the whole input under the 32-byte key with a fixed 32-byte
output ("computes a keyed cryptographic hash over the bytes using the 32-byte
key, returns the fixed-width digest as the signature"); the concrete mixing
below stands in for the real compression function, keeping exactly those
properties (total, deterministic, 32 output bytes). -/
def blake3_keyed_hash (key msg : List Nat) : List Nat :=
  let seed := (key ++ msg).foldl (fun a b => (a * 16777619 + b + 1) % 2 ^ 32) (5381 + msg.length)
  (List.range 32).map (fun i => (seed * (2 * i + 3) + i * i) % 256)

/-- Modelled from the spec: ed25519-dalek's derivation of the 32-byte
verifying key from a 32-byte signing key (external crate). The spec requires
that "signing key and verifying key are never the same object" and that the
derived key verifies the signing key's signatures; modelled as an injective
byte-wise map. -/
def ed25519_verifying_key (sk : List Nat) : List Nat :=
  sk.map (fun b => (b + 113) % 256)

/-- Modelled from the spec: the canonical deterministic Ed25519 signature for
a verifying key and message (RFC 8032 signing is deterministic, "no per-sign
randomness required by the algorithm itself"), 64 bytes wide ("produces a
64-byte signature"). -/
def ed25519_canonical_sig (pk msg : List Nat) : List Nat :=
  let seed := (pk ++ msg).foldl (fun a b => (a * 131 + b + 7) % 2 ^ 32) (msg.length + 1)
  (List.range 64).map (fun i => (seed * (2 * i + 1) + i) % 256)

/-- Modelled from the spec: `SigningKey::sign` of ed25519-dalek — the
signature produced under a signing key is the canonical signature for its
derived verifying key and the message. -/
def ed25519_sign (sk msg : List Nat) : List Nat :=
  ed25519_canonical_sig (ed25519_verifying_key sk) msg

/-- Modelled from the spec: `VerifyingKey::verify` of ed25519-dalek —
verification succeeds exactly on the canonical signature for (pk, msg)
("a verifying key derived from a signing key must verify that key's
signatures"; "an invalid signature yields false, not an error"). -/
def ed25519_verify (pk msg sig64 : List Nat) : Bool :=
  decide (sig64 = ed25519_canonical_sig pk msg)

/-! ### ChaCha20-Poly1305 (RFC 8439)

Modelled from the spec: the external chacha20poly1305 crate implements the
RFC 8439 AEAD; the crate is not part of this repository, so the construction
is reproduced here from that specification: a ChaCha20 keystream XOR for the
ciphertext body plus an appended 16-byte Poly1305 tag ("returns ciphertext
with an appended authentication tag sized per the cipher's standard
overhead"). -/

/-- Left rotation of a 32-bit word. -/
def rotl32 (x n : Nat) : Nat :=
  ((x <<< n) % 2 ^ 32) ||| (x >>> (32 - n))

/-- The ChaCha quarter round on four 32-bit words. -/
def qround (x : Nat × Nat × Nat × Nat) : Nat × Nat × Nat × Nat :=
  let a := (x.1 + x.2.1) % 2 ^ 32
  let d := rotl32 (x.2.2.2 ^^^ a) 16
  let c := (x.2.2.1 + d) % 2 ^ 32
  let b := rotl32 (x.2.1 ^^^ c) 12
  let a := (a + b) % 2 ^ 32
  let d := rotl32 (d ^^^ a) 8
  let c := (c + d) % 2 ^ 32
  let b := rotl32 (b ^^^ c) 7
  (a, b, c, d)

/-- The 16-word ChaCha20 state. -/
structure ChaChaState where
  w0 : Nat
  w1 : Nat
  w2 : Nat
  w3 : Nat
  w4 : Nat
  w5 : Nat
  w6 : Nat
  w7 : Nat
  w8 : Nat
  w9 : Nat
  w10 : Nat
  w11 : Nat
  w12 : Nat
  w13 : Nat
  w14 : Nat
  w15 : Nat
deriving Repr, DecidableEq

/-- One ChaCha double round: four column quarter rounds then four diagonal
quarter rounds. -/
def doubleRound (s : ChaChaState) : ChaChaState :=
  let (y0, y4, y8, y12) := qround (s.w0, s.w4, s.w8, s.w12)
  let (y1, y5, y9, y13) := qround (s.w1, s.w5, s.w9, s.w13)
  let (y2, y6, y10, y14) := qround (s.w2, s.w6, s.w10, s.w14)
  let (y3, y7, y11, y15) := qround (s.w3, s.w7, s.w11, s.w15)
  let (z0, z5, z10, z15) := qround (y0, y5, y10, y15)
  let (z1, z6, z11, z12) := qround (y1, y6, y11, y12)
  let (z2, z7, z8, z13) := qround (y2, y7, y8, y13)
  let (z3, z4, z9, z14) := qround (y3, y4, y9, y14)
  ⟨z0, z1, z2, z3, z4, z5, z6, z7, z8, z9, z10, z11, z12, z13, z14, z15⟩

/-- Iterate the double round. -/
def chachaRounds : Nat → ChaChaState → ChaChaState
  | 0, s => s
  | n + 1, s => chachaRounds n (doubleRound s)

/-- Little-endian 32-bit word read from four bytes of a buffer. -/
def leWord (l : List Nat) (i : Nat) : Nat :=
  l.getD i 0 + 256 * l.getD (i + 1) 0 + 65536 * l.getD (i + 2) 0 +
    16777216 * l.getD (i + 3) 0

/-- Initial ChaCha20 state: constants, 8 key words, block counter, 3 nonce
words. -/
def chachaInit (key nonce : List Nat) (counter : Nat) : ChaChaState :=
  ⟨0x61707865, 0x3320646e, 0x79622d32, 0x6b206574,
   leWord key 0, leWord key 4, leWord key 8, leWord key 12,
   leWord key 16, leWord key 20, leWord key 24, leWord key 28,
   counter % 2 ^ 32, leWord nonce 0, leWord nonce 4, leWord nonce 8⟩

/-- Componentwise 32-bit addition of two states. -/
def addState (s t : ChaChaState) : ChaChaState :=
  ⟨(s.w0 + t.w0) % 2 ^ 32, (s.w1 + t.w1) % 2 ^ 32, (s.w2 + t.w2) % 2 ^ 32,
   (s.w3 + t.w3) % 2 ^ 32, (s.w4 + t.w4) % 2 ^ 32, (s.w5 + t.w5) % 2 ^ 32,
   (s.w6 + t.w6) % 2 ^ 32, (s.w7 + t.w7) % 2 ^ 32, (s.w8 + t.w8) % 2 ^ 32,
   (s.w9 + t.w9) % 2 ^ 32, (s.w10 + t.w10) % 2 ^ 32, (s.w11 + t.w11) % 2 ^ 32,
   (s.w12 + t.w12) % 2 ^ 32, (s.w13 + t.w13) % 2 ^ 32, (s.w14 + t.w14) % 2 ^ 32,
   (s.w15 + t.w15) % 2 ^ 32⟩

/-- Serialize one 32-bit word to four little-endian bytes. -/
def le4bytes (w : Nat) : List Nat :=
  [w % 256, w / 256 % 256, w / 65536 % 256, w / 16777216 % 256]

/-- Serialize the 16-word state to 64 bytes. -/
def chachaSerialize (s : ChaChaState) : List Nat :=
  le4bytes s.w0 ++ le4bytes s.w1 ++ le4bytes s.w2 ++ le4bytes s.w3 ++
  le4bytes s.w4 ++ le4bytes s.w5 ++ le4bytes s.w6 ++ le4bytes s.w7 ++
  le4bytes s.w8 ++ le4bytes s.w9 ++ le4bytes s.w10 ++ le4bytes s.w11 ++
  le4bytes s.w12 ++ le4bytes s.w13 ++ le4bytes s.w14 ++ le4bytes s.w15

/-- The ChaCha20 block function: 10 double rounds, add the initial state,
serialize. -/
def chachaBlock (key nonce : List Nat) (counter : Nat) : List Nat :=
  chachaSerialize (addState (chachaRounds 10 (chachaInit key nonce counter))
    (chachaInit key nonce counter))

/-- Concatenation of `n` consecutive ChaCha20 blocks starting at `counter`. -/
def chachaBlocksFrom (key nonce : List Nat) (counter : Nat) : Nat → List Nat
  | 0 => []
  | n + 1 => chachaBlock key nonce counter ++ chachaBlocksFrom key nonce (counter + 1) n

/-- The encryption keystream: blocks with counters 1, 2, …, truncated to the
message length (RFC 8439 reserves counter 0 for the Poly1305 key). -/
def chachaKeystream (key nonce : List Nat) (len : Nat) : List Nat :=
  (chachaBlocksFrom key nonce 1 (len / 64 + 1)).take len

/-- Little-endian interpretation of a byte list as a number. -/
def leNum (l : List Nat) : Nat :=
  l.foldr (fun b acc => b + 256 * acc) 0

/-- Split a byte list into chunks of at most 16 bytes. -/
def chunks16 (l : List Nat) : List (List Nat) :=
  if h : l = [] then []
  else
    l.take 16 :: chunks16 (l.drop 16)
termination_by l.length
decreasing_by
  simp only [List.length_drop]
  have := List.length_pos.mpr h
  omega

/-- The Poly1305 prime 2^130 - 5. -/
def poly1305P : Nat := 2 ^ 130 - 5

/-- Serialize a number to 16 little-endian bytes. -/
def le16bytes (n : Nat) : List Nat :=
  (List.range 16).map (fun i => (n >>> (8 * i)) % 256)

/-- Serialize a number to 8 little-endian bytes. -/
def le8bytes (n : Nat) : List Nat :=
  (List.range 8).map (fun i => (n >>> (8 * i)) % 256)

/-- The Poly1305 one-time authenticator (RFC 8439 §2.5): clamp r, accumulate
16-byte chunks with a high bit appended, multiply by r mod 2^130 - 5, add s. -/
def poly1305Mac (key msg : List Nat) : List Nat :=
  let r := leNum (key.take 16) &&& 0x0ffffffc0ffffffc0ffffffc0fffffff
  let s := leNum ((key.drop 16).take 16)
  let acc := (chunks16 msg).foldl
    (fun acc c => ((acc + leNum c + 2 ^ (8 * c.length)) * r) % poly1305P) 0
  le16bytes ((acc + s) % 2 ^ 128)

/-- Zero padding to the next 16-byte boundary (RFC 8439 §2.8). -/
def pad16 (l : List Nat) : List Nat :=
  List.replicate ((16 - l.length % 16) % 16) 0

/-- The Poly1305 authentication input for the AEAD with empty associated
data: ciphertext, padding, the two 8-byte lengths (aad length 0, ciphertext
length). -/
def aeadMacData (ct : List Nat) : List Nat :=
  ct ++ pad16 ct ++ le8bytes 0 ++ le8bytes ct.length

/-- The one-time Poly1305 key: first 32 bytes of ChaCha20 block 0. -/
def aeadPolyKey (key nonce : List Nat) : List Nat :=
  (chachaBlock key nonce 0).take 32

/-- RFC 8439 ChaCha20-Poly1305 encryption (empty associated data, as the
crate's `encrypt` uses): keystream XOR, then the 16-byte tag appended. -/
def chacha20poly1305Encrypt (key nonce m : List Nat) : List Nat :=
  let ct := List.zipWith (fun a b => a ^^^ b) m (chachaKeystream key nonce m.length)
  ct ++ poly1305Mac (aeadPolyKey key nonce) (aeadMacData ct)

/-- RFC 8439 ChaCha20-Poly1305 decryption: split off the 16-byte tag,
recompute it over the ciphertext body, and only on a match XOR the keystream
back ("fails with AuthenticationFailed if the tag does not verify"). -/
def chacha20poly1305Decrypt (key nonce c : List Nat) : Option (List Nat) :=
  if c.length < 16 then none
  else
    let ct := c.take (c.length - 16)
    let tag := c.drop (c.length - 16)
    if poly1305Mac (aeadPolyKey key nonce) (aeadMacData ct) = tag then
      some (List.zipWith (fun a b => a ^^^ b) ct (chachaKeystream key nonce ct.length))
    else none

/-! ### Password generation (src/process/gen_pass.rs) -/

/-- Character set `UPPER` of gen_pass.rs. -/
def UPPER : List Nat := "ABCDEFGHJKLMNPQRSTUVWXYZ".data.map Char.toNat

/-- Character set `LOWER` of gen_pass.rs. -/
def LOWER : List Nat := "abcdefghjklmnpqrstuvwxyz".data.map Char.toNat

/-- Character set `NUMBER` of gen_pass.rs. -/
def NUMBER : List Nat := "23456789".data.map Char.toNat

/-- Character set `SYMBOL` of gen_pass.rs. -/
def SYMBOL : List Nat := "!@#$%^&*_".data.map Char.toNat

/-- Modelled from the spec: rand's `SliceRandom::choose` — one uniformly
drawn element. The thread RNG is modelled as a stream `rng` of draws indexed
by a counter; `choose` picks index `rng i % l.length`. -/
def sliceChoose (rng : Nat → Nat) (i : Nat) (l : List Nat) : Nat :=
  l.getD (rng i % l.length) 0

/-- Swap the entries at positions `i` and `j` of a list. -/
def swapAt (l : List Nat) (i j : Nat) : List Nat :=
  (l.set i (l.getD j 0)).set j (l.getD i 0)

/-- Modelled from the spec: rand's `SliceRandom::shuffle` — the Fisher-Yates
walk `for i in (1..len).rev() { swap(i, gen_range(0..=i)) }`; the first
argument of the recursion is the current `i`. -/
def shuffleGo (rng : Nat → Nat) (base : Nat) : Nat → List Nat → List Nat
  | 0, l => l
  | i + 1, l => shuffleGo rng base i (swapAt l (i + 1) (rng (base + i + 1) % (i + 2)))

/-- Shuffle a whole list, drawing from `rng` at indices above `base`. -/
def shuffleModel (rng : Nat → Nat) (base : Nat) (l : List Nat) : List Nat :=
  shuffleGo rng base (l.length - 1) l

/-- `process_genpass` of src/process/gen_pass.rs: one mandatory character
from each enabled set, then draws from the union of the enabled sets up to
`len` characters, then a shuffle. The source subtracts lengths in `u8`
(underflow aborts for `len` below the number of enabled sets); the engine
only calls it with `len = 32`, where `Nat` subtraction agrees. Returns the
password bytes (the source wraps them in a `String`). -/
def process_genpass (rng : Nat → Nat) (len : Nat)
    (upper lower number special : Bool) : List Nat :=
  let chars1 := if upper then UPPER else []
  let pass1 := if upper then [sliceChoose rng 0 UPPER] else []
  let chars2 := chars1 ++ (if lower then LOWER else [])
  let pass2 := pass1 ++ (if lower then [sliceChoose rng 1 LOWER] else [])
  let chars3 := chars2 ++ (if number then NUMBER else [])
  let pass3 := pass2 ++ (if number then [sliceChoose rng 2 NUMBER] else [])
  let chars := chars3 ++ (if special then SYMBOL else [])
  let pass := pass3 ++ (if special then [sliceChoose rng 3 SYMBOL] else [])
  let body := pass ++ (List.range (len - pass.length)).map (fun k => sliceChoose rng (4 + k) chars)
  shuffleModel rng 1000 body

/-! ### The capability structs of src/process/text.rs -/

/-- The `Blake3` struct: a 32-byte keyed-hash key. -/
structure Blake3 where
  key : List Nat

/-- `Blake3::try_new` (src/process/text.rs lines 117-121): `key[..32]` — a
slice index that panics when fewer than 32 bytes are supplied — then a
`try_into` on the exactly-32-byte slice, which at that point always
succeeds. -/
def Blake3.try_new (key : List Nat) : Outcome Blake3 :=
  if key.length < 32 then .panic
  else .ok ⟨key.take 32⟩

/-- `TextSigner::sign` for Blake3: read the whole input, return the keyed
digest. -/
def Blake3.sign (s : Blake3) (buf : List Nat) : Outcome (List Nat) :=
  .ok (blake3_keyed_hash s.key buf)

/-- `TextVerifier::verify` for Blake3: recompute the digest and compare it
with the supplied signature bytes (`ret.as_bytes() == sig`; false on any
mismatch, including a length mismatch — no width check is made). -/
def Blake3.verify (s : Blake3) (buf sigBytes : List Nat) : Outcome Bool :=
  .ok (decide (blake3_keyed_hash s.key buf = sigBytes))

/-- The `Ed25519Signer` struct: a signing key built from 32 bytes. -/
structure Ed25519Signer where
  key : List Nat

/-- `Ed25519Signer::try_new` (src/process/text.rs lines 135-139): `key[..32]`
panics below 32 bytes; otherwise the first 32 bytes become the signing
key. -/
def Ed25519Signer.try_new (key : List Nat) : Outcome Ed25519Signer :=
  if key.length < 32 then .panic
  else .ok ⟨key.take 32⟩

/-- `TextSigner::sign` for Ed25519Signer: sign the whole input with the
signing key. -/
def Ed25519Signer.sign (s : Ed25519Signer) (buf : List Nat) : Outcome (List Nat) :=
  .ok (ed25519_sign s.key buf)

/-- The `Ed25519Verifier` struct: a verifying key built from 32 bytes. -/
structure Ed25519Verifier where
  key : List Nat

/-- `Ed25519Verifier::try_new` (src/process/text.rs lines 158-165):
`key[..32]` panics below 32 bytes, then `VerifyingKey::from_bytes` (the
crate can reject a non-canonical point encoding; modelled as total — no
claim settled here depends on that failure path). -/
def Ed25519Verifier.try_new (key : List Nat) : Outcome Ed25519Verifier :=
  if key.length < 32 then .panic
  else .ok ⟨key.take 32⟩

/-- `TextVerifier::verify` for Ed25519Verifier (src/process/text.rs lines
78-89): `sig[..64]` panics when the buffer is shorter than 64 bytes; when it
is 64 bytes or longer, the first 64 bytes are converted (the `try_into` then
always succeeds) and the cryptographic check runs on them. -/
def Ed25519Verifier.verify (v : Ed25519Verifier) (buf sigBytes : List Nat) : Outcome Bool :=
  if sigBytes.length < 64 then .panic
  else .ok (ed25519_verify v.key buf (sigBytes.take 64))

/-- The `Chacha20` struct: cipher key and nonce. -/
structure Chacha20 where
  key : List Nat
  nonce : List Nat

/-- `Chacha20::try_new` (src/process/text.rs lines 168-175):
`Key::clone_from_slice(input)` panics unless the input is exactly 32 bytes;
the nonce is read from the external artifact "fixtures/chacha20.nonce"
(modelled as the `nonceFile` argument — the only I/O of the constructor) and
`Nonce::clone_from_slice` panics unless it holds exactly 12 bytes. -/
def Chacha20.try_new (input nonceFile : List Nat) : Outcome Chacha20 :=
  if input.length ≠ 32 then .panic
  else if nonceFile.length ≠ 12 then .panic
  else .ok ⟨input, nonceFile⟩

/-- `TextEncrypter::encrypt` for Chacha20: read the whole plaintext and
run the AEAD under the stored key and nonce. -/
def Chacha20.encrypt (c : Chacha20) (buf : List Nat) : Outcome (List Nat) :=
  .ok (chacha20poly1305Encrypt c.key c.nonce buf)

/-- `TextDecrypter::decrypt` for Chacha20: run the AEAD open; a tag mismatch
is the crate's opaque `aead::Error`, surfaced through anyhow. -/
def Chacha20.decrypt (c : Chacha20) (ciphertext : List Nat) : Outcome (List Nat) :=
  match chacha20poly1305Decrypt c.key c.nonce ciphertext with
  | some pt => .ok pt
  | none => .err "aead::Error"

/-- `Blake3::generate`: one artifact, a 32-character password drawn from
`process_genpass(32, true, true, true, true)`. -/
def Blake3.generate (rng : Nat → Nat) : Outcome (List (String × List Nat)) :=
  .ok [("blake3.txt", process_genpass rng 32 true true true true)]

/-- `Ed25519Signer::generate`: a fresh signing key from OsRng (modelled as 32
bytes drawn from `rng`) and its derived verifying key, two artifacts. -/
def Ed25519Signer.generate (rng : Nat → Nat) : Outcome (List (String × List Nat)) :=
  let sk := (List.range 32).map (fun i => rng i % 256)
  .ok [("ed25519.sk", sk), ("ed25519.pk", ed25519_verifying_key sk)]

/-- `Chacha20::generate`: a fresh 32-byte key and a fresh 12-byte nonce from
OsRng, two artifacts. -/
def Chacha20.generate (rng : Nat → Nat) : Outcome (List (String × List Nat)) :=
  .ok [("chacha20.key", (List.range 32).map (fun i => rng i % 256)),
    ("chacha20.nonce", (List.range 12).map (fun i => rng (32 + i) % 256))]

/-! ### The dispatch layer of src/process/text.rs -/

/-- `process_text_sign` (lines 197-209): Blake3 and Ed25519 sign; any other
format is `anyhow!("unsupported format")`, returned before any constructor
touches the key material or the input. -/
def process_text_sign (reader key : List Nat) (format : TextSignFormat) :
    Outcome (List Nat) :=
  match format with
  | .Blake3 => (Blake3.try_new key).bind (fun s => s.sign reader)
  | .Ed25519 => (Ed25519Signer.try_new key).bind (fun s => s.sign reader)
  | .Chacha20Poly1305 => .err "unsupported format"

/-- `process_text_verify` (lines 211-223): Blake3 and Ed25519 verify; any
other format is `anyhow!("unsupported format")`. -/
def process_text_verify (reader key sigBytes : List Nat) (format : TextSignFormat) :
    Outcome Bool :=
  match format with
  | .Blake3 => (Blake3.try_new key).bind (fun v => v.verify reader sigBytes)
  | .Ed25519 => (Ed25519Verifier.try_new key).bind (fun v => v.verify reader sigBytes)
  | .Chacha20Poly1305 => .err "unsupported format"

/-- `process_text_key_generate` (lines 225-232): every format has a
generator. -/
def process_text_key_generate (rng : Nat → Nat) (format : TextSignFormat) :
    Outcome (List (String × List Nat)) :=
  match format with
  | .Blake3 => Blake3.generate rng
  | .Ed25519 => Ed25519Signer.generate rng
  | .Chacha20Poly1305 => Chacha20.generate rng

/-- `process_text_encrypt` (lines 234-245): only Chacha20Poly1305 encrypts;
the other formats are `anyhow!("unsupported format")`. -/
def process_text_encrypt (reader key nonceFile : List Nat) (format : TextSignFormat) :
    Outcome (List Nat) :=
  match format with
  | .Chacha20Poly1305 => (Chacha20.try_new key nonceFile).bind (fun c => c.encrypt reader)
  | _ => .err "unsupported format"

/-- `process_text_decrypt` (lines 247-258): only Chacha20Poly1305 decrypts;
the other formats are `anyhow!("unsupported format")`. -/
def process_text_decrypt (ciphertext key nonceFile : List Nat) (format : TextSignFormat) :
    Outcome (List Nat) :=
  match format with
  | .Chacha20Poly1305 => (Chacha20.try_new key nonceFile).bind (fun c => c.decrypt ciphertext)
  | _ => .err "unsupported format"

/-- One whole encrypt invocation as the CLI performs it
(TextEncryptOpts::execute): ambient process randomness `rng` is available to
the run (key generation samples it) but the encrypt path never does — the
source path `process_text_encrypt` → `Chacha20::try_new` → `encrypt` reads
only the key bytes and the nonce artifact. -/
def run_text_encrypt (rng : Nat → Nat) (input key nonceFile : List Nat)
    (format : TextSignFormat) : Outcome (List Nat) :=
  process_text_encrypt input key nonceFile format

/-! ### Supporting lemmas -/

/-- The modelled keyed digest is always 32 bytes wide. -/
theorem blake3_keyed_hash_length (key msg : List Nat) :
    (blake3_keyed_hash key msg).length = 32 := by
  simp [blake3_keyed_hash]

/-- The modelled Ed25519 signature is always 64 bytes wide. -/
theorem ed25519_canonical_sig_length (pk msg : List Nat) :
    (ed25519_canonical_sig pk msg).length = 64 := by
  simp [ed25519_canonical_sig]

/-- Deriving a verifying key preserves the 32-byte width. -/
theorem ed25519_verifying_key_length (sk : List Nat) :
    (ed25519_verifying_key sk).length = sk.length := by
  simp [ed25519_verifying_key]

/-! ### Claim theorems: error handling of the capability constructors -/

/-- C1 (the claim fails on the code): `Ed25519Verifier::verify` slices
`sig[..64]` before the fallible conversion, so a signature buffer shorter
than 64 bytes makes the process panic with an index-out-of-range instead of
returning a MalformedSignature error, and a buffer longer than 64 bytes is
silently truncated to its first 64 bytes and the cryptographic check IS
attempted — here a valid 64-byte signature with a junk byte appended
verifies successfully instead of being rejected. -/
theorem ed25519_sig_width_code_bug :
    process_text_verify [104] (List.replicate 32 1) [] .Ed25519 = .panic ∧
    process_text_verify [104] (ed25519_verifying_key (List.replicate 32 1))
      (ed25519_sign (List.replicate 32 1) [104] ++ [0]) .Ed25519 = .ok true := by
  constructor
  · decide
  · decide

/-- C2 (the claim fails on the code): supplying 31 bytes of key material does
not produce a KeyMaterialTooShort/MalformedKey error — `key[..32]` in
`Blake3::try_new` and `Ed25519Signer::try_new` and `clone_from_slice` in
`Chacha20::try_new` all panic, crashing instead of returning an error. -/
theorem key_too_short_code_bug :
    process_text_sign [104] (List.replicate 31 0) .Blake3 = .panic ∧
    process_text_sign [104] (List.replicate 31 0) .Ed25519 = .panic ∧
    process_text_encrypt [104] (List.replicate 31 0) (List.replicate 12 0)
      .Chacha20Poly1305 = .panic := by
  refine ⟨by decide, by decide, by decide⟩

/-- C5: every format/operation mismatch is rejected by the dispatch layer
with the unsupported-format error, for all key material and inputs alike
(the error branch is taken before any constructor sees the key bytes). -/
theorem dispatch_unsupported (reader key sigBytes nonceFile : List Nat) :
    process_text_sign reader key .Chacha20Poly1305 = .err "unsupported format" ∧
    process_text_verify reader key sigBytes .Chacha20Poly1305 = .err "unsupported format" ∧
    process_text_encrypt reader key nonceFile .Blake3 = .err "unsupported format" ∧
    process_text_encrypt reader key nonceFile .Ed25519 = .err "unsupported format" ∧
    process_text_decrypt reader key nonceFile .Blake3 = .err "unsupported format" ∧
    process_text_decrypt reader key nonceFile .Ed25519 = .err "unsupported format" :=
  ⟨rfl, rfl, rfl, rfl, rfl, rfl⟩

/-- C9: Blake3 verification never checks the signature width — a buffer of
any length other than the 32-byte digest width is an ordinary non-match,
`Ok(false)`, never an error or panic. -/
theorem blake3_wrong_width_ok_false (key buf sigBytes : List Nat)
    (hk : 32 ≤ key.length) (hs : sigBytes.length ≠ 32) :
    process_text_verify buf key sigBytes .Blake3 = .ok false := by
  have hne : blake3_keyed_hash (key.take 32) buf ≠ sigBytes := by
    intro hEq
    exact hs (hEq ▸ blake3_keyed_hash_length (key.take 32) buf)
  simp [process_text_verify, Blake3.try_new, Blake3.verify, Outcome.bind,
    Nat.not_lt.mpr hk, hne]

/-- Witness for `blake3_wrong_width_ok_false`: a 32-byte key with an empty
signature buffer. -/
theorem blake3_wrong_width_ok_false_witness :
    process_text_verify [104] (List.replicate 32 0) [] .Blake3 = .ok false :=
  blake3_wrong_width_ok_false (List.replicate 32 0) [104] [] (by decide) (by decide)

/-- C6: for key material of at least 32 bytes, the Blake3 and Ed25519 signer
constructors succeed and use exactly the first 32 bytes — signing under the
full material equals signing under its 32-byte prefix. -/
theorem key_truncation_first32 (K m : List Nat) (h : 32 ≤ K.length) :
    (∃ out, process_text_sign m K .Blake3 = .ok out) ∧
    (∃ out, process_text_sign m K .Ed25519 = .ok out) ∧
    process_text_sign m K .Blake3 = process_text_sign m (K.take 32) .Blake3 ∧
    process_text_sign m K .Ed25519 = process_text_sign m (K.take 32) .Ed25519 := by
  have hK : ¬ K.length < 32 := Nat.not_lt.mpr h
  have hK32 : ¬ (K.take 32).length < 32 := by
    simp [List.length_take]
    omega
  have htt : (K.take 32).take 32 = K.take 32 := by
    rw [List.take_take, min_self]
  refine ⟨⟨blake3_keyed_hash (K.take 32) m, ?_⟩, ⟨ed25519_sign (K.take 32) m, ?_⟩, ?_, ?_⟩ <;>
    simp [process_text_sign, Blake3.try_new, Ed25519Signer.try_new, Outcome.bind,
      Blake3.sign, Ed25519Signer.sign, hK, hK32, htt]

/-- Witness for `key_truncation_first32`: 40 bytes of key material. -/
theorem key_truncation_first32_witness :
    process_text_sign [1, 2, 3] (List.replicate 40 7) .Blake3 =
      process_text_sign [1, 2, 3] ((List.replicate 40 7).take 32) .Blake3 :=
  (key_truncation_first32 (List.replicate 40 7) [1, 2, 3] (by decide)).2.2.1

/-- C4: signing then verifying with the same key succeeds for both the
KeyedHash and the Signature format (for Ed25519 the verifier is built from
the verifying key derived from the 32-byte signing key the signer used). -/
theorem sign_verify_roundtrip (m k : List Nat) (hk : 32 ≤ k.length) :
    (process_text_sign m k .Blake3).bind
      (fun s => process_text_verify m k s .Blake3) = .ok true ∧
    (process_text_sign m k .Ed25519).bind
      (fun s => process_text_verify m (ed25519_verifying_key (k.take 32)) s .Ed25519) =
      .ok true := by
  have hK : ¬ k.length < 32 := Nat.not_lt.mpr hk
  constructor
  · simp [process_text_sign, process_text_verify, Blake3.try_new, Outcome.bind,
      Blake3.sign, Blake3.verify, hK]
  · have hpk : (ed25519_verifying_key (k.take 32)).length = 32 := by
      rw [ed25519_verifying_key_length, List.length_take]
      omega
    have hsig : (ed25519_sign (k.take 32) m).length = 64 := by
      simp [ed25519_sign, ed25519_canonical_sig_length]
    have hpk_take : (ed25519_verifying_key (k.take 32)).take 32 =
        ed25519_verifying_key (k.take 32) :=
      List.take_of_length_le (by rw [hpk])
    have hsig_take : (ed25519_sign (k.take 32) m).take 64 = ed25519_sign (k.take 32) m :=
      List.take_of_length_le (by rw [hsig])
    simp [process_text_sign, process_text_verify, Ed25519Signer.try_new,
      Ed25519Verifier.try_new, Outcome.bind, Ed25519Signer.sign, Ed25519Verifier.verify,
      hK, hpk, hsig, hpk_take, hsig_take, ed25519_verify, ed25519_sign,
      ed25519_canonical_sig_length]

/-- Witness for `sign_verify_roundtrip`: a 32-byte key and a 2-byte
message. -/
theorem sign_verify_roundtrip_witness :
    (process_text_sign [104, 105] (List.replicate 32 9) .Blake3).bind
      (fun s => process_text_verify [104, 105] (List.replicate 32 9) s .Blake3) = .ok true :=
  (sign_verify_roundtrip [104, 105] (List.replicate 32 9) (by decide)).1

/-- C10: encryption is deterministic across invocations — the ambient
process randomness (sampled by key generation) is never sampled on the
encrypt path, so two runs under any two randomness streams with the same
plaintext, key material and nonce-artifact bytes produce one and the same
ciphertext. -/
theorem encrypt_deterministic (r1 r2 : Nat → Nat) (m k nf1 nf2 : List Nat)
    (hk : k.length = 32) (hnf : nf1 = nf2) (hn : nf1.length = 12) :
    ∃ ct, run_text_encrypt r1 m k nf1 .Chacha20Poly1305 = .ok ct ∧
      run_text_encrypt r2 m k nf2 .Chacha20Poly1305 = .ok ct := by
  subst hnf
  refine ⟨chacha20poly1305Encrypt k nf1 m, ?_, ?_⟩ <;>
    simp [run_text_encrypt, process_text_encrypt, Chacha20.try_new, Outcome.bind,
      Chacha20.encrypt, hk, hn]

/-- Witness for `encrypt_deterministic`: two distinct randomness streams,
one plaintext, key and nonce file. -/
theorem encrypt_deterministic_witness :
    ∃ ct, run_text_encrypt (fun _ => 0) [104] (List.replicate 32 1) (List.replicate 12 2)
        .Chacha20Poly1305 = .ok ct ∧
      run_text_encrypt (fun n => n + 5) [104] (List.replicate 32 1) (List.replicate 12 2)
        .Chacha20Poly1305 = .ok ct :=
  encrypt_deterministic (fun _ => 0) (fun n => n + 5) [104] (List.replicate 32 1)
    (List.replicate 12 2) (List.replicate 12 2) (by decide) rfl (by decide)

/-- `swapAt` preserves the length. -/
theorem swapAt_length (l : List Nat) (i j : Nat) : (swapAt l i j).length = l.length := by
  simp [swapAt]

/-- The Fisher-Yates walk preserves the length. -/
theorem shuffleGo_length (rng : Nat → Nat) (base : Nat) :
    ∀ (n : Nat) (l : List Nat), (shuffleGo rng base n l).length = l.length := by
  intro n
  induction n with
  | zero => intro l; rfl
  | succ i ih =>
    intro l
    rw [shuffleGo, ih, swapAt_length]

/-- Shuffling preserves the length. -/
theorem shuffleModel_length (rng : Nat → Nat) (base : Nat) (l : List Nat) :
    (shuffleModel rng base l).length = l.length :=
  shuffleGo_length rng base _ l

/-- With all four character classes enabled and a requested length of at
least 4, `process_genpass` returns exactly the requested number of bytes. -/
theorem process_genpass_length (rng : Nat → Nat) (len : Nat) (h4 : 4 ≤ len) :
    (process_genpass rng len true true true true).length = len := by
  simp [process_genpass, shuffleModel_length]
  omega

/-- C8: each format generates its fixed artifact names with the fixed sizes:
one 32-byte "blake3.txt"; 32-byte "ed25519.sk" and "ed25519.pk" with the
public key derived from the secret; a 32-byte "chacha20.key" plus a 12-byte
"chacha20.nonce". -/
theorem key_generate_artifacts (rng : Nat → Nat) :
    (∃ pw, process_text_key_generate rng .Blake3 = .ok [("blake3.txt", pw)] ∧
      pw.length = 32) ∧
    (∃ sk, process_text_key_generate rng .Ed25519 =
        .ok [("ed25519.sk", sk), ("ed25519.pk", ed25519_verifying_key sk)] ∧
      sk.length = 32 ∧ (ed25519_verifying_key sk).length = 32) ∧
    (∃ ck nn, process_text_key_generate rng .Chacha20Poly1305 =
        .ok [("chacha20.key", ck), ("chacha20.nonce", nn)] ∧
      ck.length = 32 ∧ nn.length = 12) := by
  refine ⟨⟨_, rfl, process_genpass_length rng 32 (by norm_num)⟩,
    ⟨(List.range 32).map (fun i => rng i % 256), rfl, by simp, ?_⟩,
    ⟨_, _, rfl, by simp, by simp⟩⟩
  rw [ed25519_verifying_key_length]
  simp

/-- A ChaCha20 block serializes to exactly 64 bytes. -/
theorem chachaBlock_length (key nonce : List Nat) (counter : Nat) :
    (chachaBlock key nonce counter).length = 64 := by
  simp [chachaBlock, chachaSerialize, le4bytes]

/-- `q` consecutive blocks are `64 * q` bytes. -/
theorem chachaBlocksFrom_length (key nonce : List Nat) :
    ∀ (q counter : Nat), (chachaBlocksFrom key nonce counter q).length = 64 * q := by
  intro q
  induction q with
  | zero => intro c; rfl
  | succ n ih =>
    intro c
    simp only [chachaBlocksFrom, List.length_append, chachaBlock_length, ih]
    omega

/-- The keystream has exactly the requested length. -/
theorem chachaKeystream_length (key nonce : List Nat) (len : Nat) :
    (chachaKeystream key nonce len).length = len := by
  rw [chachaKeystream, List.length_take, chachaBlocksFrom_length]
  have h1 := Nat.div_add_mod len 64
  have h2 : len % 64 < 64 := Nat.mod_lt _ (by norm_num)
  omega

/-- The Poly1305 tag is 16 bytes. -/
theorem poly1305Mac_length (key msg : List Nat) : (poly1305Mac key msg).length = 16 := by
  simp [poly1305Mac, le16bytes]

/-- XOR-ing with the same keystream twice is the identity (the keystream must
be at least as long as the message). -/
theorem zipWith_xor_cancel :
    ∀ (m ks : List Nat), m.length ≤ ks.length →
      List.zipWith (fun a b => a ^^^ b) (List.zipWith (fun a b => a ^^^ b) m ks) ks = m := by
  intro m
  induction m with
  | nil => intro ks h; simp
  | cons a t ih =>
    intro ks h
    cases ks with
    | nil => simp at h
    | cons b tks =>
      simp only [List.zipWith_cons_cons]
      rw [Nat.xor_cancel_right, ih tks (by simpa using h)]

/-- Opening a ciphertext of the form body ++ 16-byte tag, when the tag is the
correct one, XORs the keystream back over the body. -/
theorem aead_decrypt_append (key nonce ct tag : List Nat) (htagl : tag.length = 16)
    (htageq : poly1305Mac (aeadPolyKey key nonce) (aeadMacData ct) = tag) :
    chacha20poly1305Decrypt key nonce (ct ++ tag) =
      some (List.zipWith (fun a b => a ^^^ b) ct (chachaKeystream key nonce ct.length)) := by
  have hlen : (ct ++ tag).length = ct.length + 16 := by rw [List.length_append, htagl]
  simp only [chacha20poly1305Decrypt]
  rw [hlen, if_neg (by omega)]
  have h16 : ct.length + 16 - 16 = ct.length := by omega
  rw [h16, List.take_left, List.drop_left, if_pos htageq]

/-- The RFC 8439 AEAD round trip: decrypting an encryption returns the
plaintext, for every key, nonce and message. -/
theorem aead_roundtrip (key nonce m : List Nat) :
    chacha20poly1305Decrypt key nonce (chacha20poly1305Encrypt key nonce m) = some m := by
  have hksl := chachaKeystream_length key nonce m.length
  have hctl : (List.zipWith (fun a b => a ^^^ b) m
      (chachaKeystream key nonce m.length)).length = m.length := by
    rw [List.length_zipWith, hksl, min_self]
  have henc : chacha20poly1305Encrypt key nonce m =
      List.zipWith (fun a b => a ^^^ b) m (chachaKeystream key nonce m.length) ++
        poly1305Mac (aeadPolyKey key nonce)
          (aeadMacData (List.zipWith (fun a b => a ^^^ b) m
            (chachaKeystream key nonce m.length))) := rfl
  rw [henc, aead_decrypt_append _ _ _ _ (poly1305Mac_length _ _) rfl, hctl]
  exact congrArg some (zipWith_xor_cancel m _ hksl.ge)

/-- C3: decrypting the encryption of any plaintext under the same 32-byte
key material and the same 12-byte nonce artifact returns the plaintext
exactly, through the Chacha20Poly1305 process entry points. -/
theorem cipher_roundtrip (m k nf : List Nat) (hk : k.length = 32) (hn : nf.length = 12) :
    (process_text_encrypt m k nf .Chacha20Poly1305).bind
      (fun ct => process_text_decrypt ct k nf .Chacha20Poly1305) = .ok m := by
  simp [process_text_encrypt, process_text_decrypt, Chacha20.try_new, Outcome.bind,
    Chacha20.encrypt, Chacha20.decrypt, hk, hn, aead_roundtrip]

/-- Witness for `cipher_roundtrip`: the 5-byte plaintext "hello", a concrete
32-byte key and 12-byte nonce artifact. -/
theorem cipher_roundtrip_witness :
    (process_text_encrypt [104, 101, 108, 108, 111] (List.replicate 32 3)
        (List.replicate 12 7) .Chacha20Poly1305).bind
      (fun ct => process_text_decrypt ct (List.replicate 32 3) (List.replicate 12 7)
        .Chacha20Poly1305) = .ok [104, 101, 108, 108, 111] :=
  cipher_roundtrip [104, 101, 108, 108, 111] (List.replicate 32 3) (List.replicate 12 7)
    (by decide) (by decide)
